import Mathlib

/-!
# GitTranslate — synthesis fan-out/merge pipeline, verified model

Shallow embedding of the text-to-speech fan-out/merge/upload pipeline of
the GitTranslate repository, in its two duplicated variants:

* `scripts/text2speech.py`   (namespace `Scripts`)
* `backend/app/services/orkes.py`, TTS section (namespace `Orkes`)

External collaborators (the LMNT speech service, pydub/ffmpeg decoding and
encoding, boto3/S3, and the uuid4 draw) are modelled as oracles collected in
a `World` record.  Each pipeline function returns its result together with
the observable network effects it performs (the synthesis POST requests and
the S3 upload attempts), so that "no network call is issued" claims are
statable.

`asyncio.gather` is modelled by `gatherWithOrder`: the completion order of
the concurrently running tasks is an explicit parameter (a permutation of
the task indices); each completed task writes its result into its own slot,
slots are read out in index order, and a failure propagates the error of
the first task, in completion order, that failed.
-/

set_option autoImplicit false

namespace GitTranslate

/-- Raw encoded audio bytes (an mp3 payload), one byte per entry. -/
abbrev Bytes := List Nat

/-- Decoded audio: a sequence of PCM samples (model of a pydub `AudioSegment`). -/
abbrev Audio := List Int

/-- The JSON payload each `fetch_tts` posts to the LMNT speech endpoint
(`scripts/text2speech.py` lines 27–37, `orkes.py` lines 135–145). -/
structure TtsPayload where
  voice : String
  text : String
  model : String
  language : String
  format : String
  sample_rate : Nat
  seed : Nat
  top_p : Rat
  temperature : Nat
  deriving Repr, DecidableEq

/-- An HTTP response from the speech service: status code plus body bytes. -/
structure HttpResponse where
  status : Nat
  body : Bytes
  deriving Repr, DecidableEq

/-- One S3 `upload_fileobj` attempt: bucket, key, body and content type. -/
structure S3Put where
  bucket : String
  key : String
  body : Bytes
  contentType : String
  deriving Repr, DecidableEq

/-- The Python exceptions the pipeline stages can raise:
`aiohttp.ClientResponseError` (from `raise_for_status`, carrying the HTTP
status and no utterance index), pydub's `CouldntDecodeError`, and a boto3
upload failure. -/
inductive PyExc where
  | clientResponseError (status : Nat)
  | couldntDecodeError
  | uploadError
  deriving Repr, DecidableEq

/-- Equality of `Except` results is decidable, so that concrete runs of the
model can be checked by evaluation. -/
instance {ε α : Type} [DecidableEq ε] [DecidableEq α] : DecidableEq (Except ε α)
  | .ok a, .ok b =>
      if h : a = b then .isTrue (by rw [h])
      else .isFalse (by intro hh; cases hh; exact h rfl)
  | .ok _, .error _ => .isFalse (by intro h; cases h)
  | .error _, .ok _ => .isFalse (by intro h; cases h)
  | .error a, .error b =>
      if h : a = b then .isTrue (by rw [h])
      else .isFalse (by intro hh; cases hh; exact h rfl)

/-- Oracles for the external collaborators of one pipeline invocation:
the speech service's response to each payload, mp3 decoding (`none` models
pydub raising `CouldntDecodeError`), mp3 re-encoding of the merged segment,
whether S3 accepts an upload, and the `uuid.uuid4()` draw of this run. -/
structure World where
  svc : TtsPayload → HttpResponse
  decodeMp3 : Bytes → Option Audio
  exportMp3 : Audio → Bytes
  s3Accept : S3Put → Bool
  uuid4 : String

/-! ## Model of `asyncio.gather`

All tasks are pure values already determined when the gather starts (each
`fetch_tts` coroutine's result depends only on the oracle and its own
arguments).  The completion order is a list of task indices; completions
write into per-task slots, and the slots are read out in index order. -/

/-- Replay the completions in `order`: each completed task `i` stores its
result in slot `i`.  Slots of tasks that never complete stay `none`. -/
def fillSlots {α : Type} (tasks : List α) (order : List Nat) : Nat → Option α :=
  order.foldl (fun slots i => fun j => if j = i then tasks.get? i else slots j) fun _ => none

/-- The error of the first task, in completion order, that failed. -/
def firstFailure {ε α : Type} (tasks : List (Except ε α)) (order : List Nat) : Option ε :=
  order.findSome? fun i =>
    match tasks.get? i with
    | some (.error e) => some e
    | _ => none

/-- `asyncio.gather(*tasks)` (with `return_exceptions=False`): if any task
fails, the first failure in completion order propagates; otherwise the
results are read out of the slots in task-index order. -/
def gatherWithOrder {ε α : Type} [Inhabited α] (tasks : List (Except ε α))
    (order : List Nat) : Except ε (List α) :=
  match firstFailure tasks order with
  | some e => .error e
  | none =>
      .ok <| (List.range tasks.length).map fun i =>
        match fillSlots tasks order i with
        | some (.ok a) => a
        | _ => default

namespace Scripts

/-- `AWS_S3_BUCKET` of `scripts/text2speech.py` line 14. -/
def AWS_S3_BUCKET : String := "github-podcasts"

/-- `get_voice` of `scripts/text2speech.py` lines 22–23:
`"brandon" if index % 2 == 0 else "juniper"`. -/
def get_voice (index : Nat) : String :=
  if index % 2 == 0 then "brandon" else "juniper"

/-- `fetch_tts` of `scripts/text2speech.py` lines 26–45: builds the payload,
posts it, and either raises `ClientResponseError` (via `raise_for_status`,
when the status is `≥ 400`) or returns the response bytes.  The second
component records the POST request the call issues. -/
def fetch_tts (svc : TtsPayload → HttpResponse) (text voice : String) :
    Except PyExc Bytes × TtsPayload :=
  let payload : TtsPayload :=
    { voice := voice
      text := text
      model := "blizzard"
      language := "auto"
      format := "mp3"
      sample_rate := 24000
      seed := 123
      top_p := mkRat 8 10
      temperature := 1 }
  let response := svc payload
  (if 400 ≤ response.status then .error (.clientResponseError response.status)
   else .ok response.body,
   payload)

/-- `process_conversation` of `scripts/text2speech.py` lines 48–57: one
`fetch_tts` task per utterance, voice chosen by index, gathered with
completion order `order`.  All the POST requests are issued when the tasks
are created, before the gather suspends, so the request log is the full
task list even when the gather fails. -/
def process_conversation (w : World) (conversation : List String)
    (order : List Nat) : Except PyExc (List Bytes) × List TtsPayload :=
  let tasks := conversation.enum.map fun it => fetch_tts w.svc it.2 (get_voice it.1)
  (gatherWithOrder (tasks.map Prod.fst) order, tasks.map Prod.snd)

/-- The `for` loop of `merge_and_upload` (`scripts/text2speech.py`
lines 62–65), accumulator made explicit: decode each chunk, appending it to
`merged`; a decode failure aborts the whole loop. -/
def mergeLoopAux (decode : Bytes → Option Audio) (merged : Audio) :
    List Bytes → Option Audio
  | [] => some merged
  | chunk :: rest =>
    match decode chunk with
    | none => none
    | some audio => mergeLoopAux decode (merged ++ audio) rest

/-- The merge loop started from `AudioSegment.empty()`. -/
def mergeLoop (decode : Bytes → Option Audio) (chunks : List Bytes) : Option Audio :=
  mergeLoopAux decode [] chunks

/-- `merge_and_upload` of `scripts/text2speech.py` lines 60–76: decode and
concatenate the chunks in order, export the merged audio to mp3, draw a
uuid4 key, attempt the S3 upload with content type `audio/mpeg`, and return
the bucket/key URL.  The second component logs the upload attempts made. -/
def merge_and_upload (w : World) (audio_chunks : List Bytes) :
    Except PyExc String × List S3Put :=
  match mergeLoop w.decodeMp3 audio_chunks with
  | none => (.error .couldntDecodeError, [])
  | some merged =>
    let buffer := w.exportMp3 merged
    let key := w.uuid4
    let put : S3Put := ⟨AWS_S3_BUCKET, key, buffer, "audio/mpeg"⟩
    if w.s3Accept put then
      (.ok ("https://" ++ AWS_S3_BUCKET ++ ".s3.amazonaws.com/" ++ key), [put])
    else
      (.error .uploadError, [put])

/-- What `text2speech` hands back to its caller: either the final URL, or —
because the `except` clause only prints the exception and the function then
executes `return final_url` with `final_url` never assigned on that path —
Python's `UnboundLocalError` naming the unassigned variable. -/
inductive T2SOutcome where
  | url (u : String)
  | unboundLocalError (varName : String)
  deriving Repr, DecidableEq

/-- One observable run of the entry point: outcome plus the network effects
(synthesis POSTs issued, S3 uploads attempted). -/
structure T2SRun where
  outcome : T2SOutcome
  requests : List TtsPayload
  uploads : List S3Put
  deriving Repr, DecidableEq

/-- `text2speech` of `scripts/text2speech.py` lines 79–87: run the fan-out
and the merge/upload inside `try`; any exception is caught and printed, and
the subsequent `return final_url` then raises `UnboundLocalError` because
`final_url` was never assigned on the failing path. -/
def text2speech (w : World) (conversation : List String) (order : List Nat) :
    T2SRun :=
  match process_conversation w conversation order with
  | (.error _, reqs) => ⟨.unboundLocalError "final_url", reqs, []⟩
  | (.ok audio_results, reqs) =>
    match merge_and_upload w audio_results with
    | (.ok final_url, puts) => ⟨.url final_url, reqs, puts⟩
    | (.error _, puts) => ⟨.unboundLocalError "final_url", reqs, puts⟩

end Scripts

namespace Orkes

/-!  The TTS section of `backend/app/services/orkes.py` (lines 129–180)
duplicates `scripts/text2speech.py` with two differences: the odd-index
voice is `"elowen"` instead of `"juniper"`, and the entry point
`get_audio_file` re-raises every failure as
`RuntimeError(f"Error generating audio: {e}")` instead of swallowing it.
`orkes.py` reads the module globals `LMNT_API_KEY` and `AWS_S3_BUCKET`
without defining or importing them; we model the dataflow the code writes,
with the values those names carry in the scripts module. -/

/-- `get_voice` of `backend/app/services/orkes.py` lines 130–131:
`"brandon" if index % 2 == 0 else "elowen"`. -/
def get_voice (index : Nat) : String :=
  if index % 2 == 0 then "brandon" else "elowen"

/-- `fetch_tts` of `backend/app/services/orkes.py` lines 134–149: same
payload literal and `raise_for_status` discipline as the scripts variant. -/
def fetch_tts (svc : TtsPayload → HttpResponse) (text voice : String) :
    Except PyExc Bytes × TtsPayload :=
  let payload : TtsPayload :=
    { voice := voice
      text := text
      model := "blizzard"
      language := "auto"
      format := "mp3"
      sample_rate := 24000
      seed := 123
      top_p := mkRat 8 10
      temperature := 1 }
  let response := svc payload
  (if 400 ≤ response.status then .error (.clientResponseError response.status)
   else .ok response.body,
   payload)

/-- `process_conversation` of `backend/app/services/orkes.py` lines 152–155. -/
def process_conversation (w : World) (conversation : List String)
    (order : List Nat) : Except PyExc (List Bytes) × List TtsPayload :=
  let tasks := conversation.enum.map fun it => fetch_tts w.svc it.2 (get_voice it.1)
  (gatherWithOrder (tasks.map Prod.fst) order, tasks.map Prod.snd)

/-- `merge_and_upload` of `backend/app/services/orkes.py` lines 158–171:
identical logic to the scripts variant. -/
def merge_and_upload (w : World) (audio_chunks : List Bytes) :
    Except PyExc String × List S3Put :=
  match Scripts.mergeLoop w.decodeMp3 audio_chunks with
  | none => (.error .couldntDecodeError, [])
  | some merged =>
    let buffer := w.exportMp3 merged
    let key := w.uuid4
    let put : S3Put := ⟨Scripts.AWS_S3_BUCKET, key, buffer, "audio/mpeg"⟩
    if w.s3Accept put then
      (.ok ("https://" ++ Scripts.AWS_S3_BUCKET ++ ".s3.amazonaws.com/" ++ key), [put])
    else
      (.error .uploadError, [put])

/-- The single exception class `get_audio_file` raises on any failure. -/
inductive OrkesError where
  | runtimeError (msg : String)
  deriving Repr, DecidableEq

/-- Python's `str(e)` for the exceptions of the pipeline stages, as
interpolated into the `RuntimeError` message; the exact wording is the
third-party libraries' and is immaterial to the theorems below. -/
def pyStr : PyExc → String
  | .clientResponseError status => "ClientResponseError: " ++ toString status
  | .couldntDecodeError => "CouldntDecodeError: decoding failed"
  | .uploadError => "S3UploadFailedError: upload failed"

/-- `get_audio_file` of `backend/app/services/orkes.py` lines 174–180: run
fan-out then merge/upload inside `try`; any exception `e` is re-raised as
`RuntimeError(f"Error generating audio: {e}")`. -/
def get_audio_file (w : World) (conversation : List String) (order : List Nat) :
    Except OrkesError String × List TtsPayload × List S3Put :=
  match process_conversation w conversation order with
  | (.error e, reqs) =>
      (.error (.runtimeError ("Error generating audio: " ++ pyStr e)), reqs, [])
  | (.ok audio_results, reqs) =>
    match merge_and_upload w audio_results with
    | (.ok url, puts) => (.ok url, reqs, puts)
    | (.error e, puts) =>
        (.error (.runtimeError ("Error generating audio: " ++ pyStr e)), reqs, puts)

end Orkes

/-! ## Concrete worlds used to exercise the model -/

/-- A world where every collaborator succeeds: the speech service answers
status 200 with body `[7]`, decoding and re-encoding are byte-faithful,
S3 accepts every upload, and the uuid4 draw is `"key-1"`. -/
def wOk : World where
  svc := fun _ => ⟨200, [7]⟩
  decodeMp3 := fun b => some (b.map Int.ofNat)
  exportMp3 := fun a => a.map Int.toNat
  s3Accept := fun _ => true
  uuid4 := "key-1"

/-- Like `wOk`, but the speech service answers 500 to the utterance `"a"`. -/
def wFailA : World :=
  { wOk with svc := fun p => if p.text = "a" then ⟨500, []⟩ else ⟨200, [7]⟩ }

/-- Like `wOk`, but the speech service answers 500 to the utterance `"b"`. -/
def wFailB : World :=
  { wOk with svc := fun p => if p.text = "b" then ⟨500, []⟩ else ⟨200, [7]⟩ }

/-- Like `wOk`, but every byte payload fails to decode as mp3. -/
def wDecodeFail : World :=
  { wOk with decodeMp3 := fun _ => none }

/-- Like `wOk`, but S3 rejects every upload. -/
def wUploadFail : World :=
  { wOk with s3Accept := fun _ => false }

/-! ### Behaviour of the gather model -/

theorem fillSlots_foldl {α : Type} (tasks : List α) (order : List Nat)
    (init : Nat → Option α) (j : Nat) :
    (order.foldl (fun slots i => fun k => if k = i then tasks.get? i else slots k) init) j
      = if j ∈ order then tasks.get? j else init j := by
  induction order generalizing init with
  | nil => simp
  | cons i rest ih =>
      simp only [List.foldl_cons, ih, List.mem_cons]
      by_cases hr : j ∈ rest
      · simp [hr]
      · by_cases hj : j = i <;> simp [hr, hj]

theorem fillSlots_of_mem {α : Type} (tasks : List α) (order : List Nat)
    (j : Nat) (hj : j ∈ order) :
    fillSlots tasks order j = tasks.get? j := by
  unfold fillSlots
  rw [fillSlots_foldl]
  simp [hj]

theorem firstFailure_eq_none {ε α : Type} (tasks : List (Except ε α))
    (order : List Nat)
    (hok : ∀ i ∈ order, ∀ e : ε, tasks.get? i ≠ some (.error e)) :
    firstFailure tasks order = none := by
  unfold firstFailure
  rw [List.findSome?_eq_none_iff]
  intro i hi
  cases h : tasks.get? i with
  | none => simp
  | some t =>
      cases t with
      | error e => exact absurd h (hok i hi e)
      | ok v => simp

/-- If every task is already a success and the completion order is a
permutation of the task indices, the gather returns exactly the task values
in task-index order — independent of the completion order. -/
theorem gatherWithOrder_ok {ε α : Type} [Inhabited α] (vals : List α)
    (order : List Nat)
    (hperm : order.Perm (List.range vals.length)) :
    gatherWithOrder (ε := ε) (vals.map Except.ok) order = .ok vals := by
  have hget : ∀ i, (vals.map (Except.ok (ε := ε))).get? i = (vals.get? i).map Except.ok := by
    intro i
    simp
  have hnone : firstFailure (vals.map (Except.ok (ε := ε))) order = none := by
    apply firstFailure_eq_none
    intro i _ e
    rw [hget]
    cases vals.get? i <;> simp
  unfold gatherWithOrder
  rw [hnone]
  simp only [List.length_map]
  congr 1
  apply List.ext
  intro i
  by_cases hi : i < vals.length
  · have hmem : i ∈ order := hperm.mem_iff.mpr (List.mem_range.mpr hi)
    rw [List.get?_map, List.get?_range hi]
    have hslot := fillSlots_of_mem (vals.map (Except.ok (ε := ε))) order i hmem
    have hv : vals.get? i = some (vals.get ⟨i, hi⟩) := List.get?_eq_get hi
    rw [Option.map_some', hslot, hget, hv]
    rfl
  · have h1 : (List.range vals.length).get? i = none := by
      rw [List.get?_eq_none]
      simpa using Nat.le_of_not_lt hi
    have h2 : vals.get? i = none := by
      rw [List.get?_eq_none]
      exact Nat.le_of_not_lt hi
    rw [List.get?_map, h1, h2]
    rfl

/-- If some completed task failed, the gather propagates an error. -/
theorem gatherWithOrder_error {ε α : Type} [Inhabited α]
    (tasks : List (Except ε α)) (order : List Nat)
    (i : Nat) (hi : i ∈ order) (e : ε) (he : tasks.get? i = some (.error e)) :
    ∃ e', gatherWithOrder tasks order = .error e' := by
  cases h : firstFailure tasks order with
  | some e' => exact ⟨e', by unfold gatherWithOrder; rw [h]⟩
  | none =>
      exfalso
      unfold firstFailure at h
      rw [List.findSome?_eq_none_iff] at h
      have := h i hi
      rw [he] at this
      simp at this


/-- A failure propagated by the gather is the failure of one of the tasks. -/
theorem firstFailure_some_spec {ε α : Type} (tasks : List (Except ε α)) :
    ∀ (order : List Nat) (e : ε), firstFailure tasks order = some e →
      ∃ j, tasks.get? j = some (.error e) := by
  intro order
  induction order with
  | nil =>
      intro e h
      simp [firstFailure] at h
  | cons i rest ih =>
      intro e h
      unfold firstFailure at h ih
      cases ht : tasks.get? i with
      | none =>
          simp only [List.findSome?, ht] at h
          exact ih e h
      | some t =>
          cases t with
          | ok v =>
              simp only [List.findSome?, ht] at h
              exact ih e h
          | error e' =>
              simp only [List.findSome?, ht] at h
              cases h
              exact ⟨i, ht⟩

/-! ### Helper lemmas about lists -/

/-- Mapping over `enum` is the same as mapping over the index range,
reading the element at each index. -/
theorem enum_map_eq_range_map {β : Type} (l : List String) (f : Nat × String → β) :
    l.enum.map f = (List.range l.length).map fun i => f (i, l.getD i "") := by
  apply List.ext
  intro i
  rw [List.get?_map, List.get?_map, List.enum_get?]
  by_cases hi : i < l.length
  · rw [List.get?_range hi]
    have hv : l.get? i = some (l.get ⟨i, hi⟩) := List.get?_eq_get hi
    have hd : l.getD i "" = l.get ⟨i, hi⟩ := by
      show (l.get? i).getD "" = _
      rw [hv]
      rfl
    rw [hv]
    simp only [Option.map_some']
    rw [hd]
  · have h1 : l.get? i = none := by
      rw [List.get?_eq_none]
      exact Nat.le_of_not_lt hi
    have h2 : (List.range l.length).get? i = none := by
      rw [List.get?_eq_none]
      simpa using Nat.le_of_not_lt hi
    rw [h1, h2]
    rfl

/-! ### Helper lemmas about the merge loop -/

/-- When every chunk decodes, the loop returns the accumulator followed by
the decoded clips, concatenated in list order. -/
theorem mergeLoopAux_ok (decode : Bytes → Option Audio) :
    ∀ (chunks : List Bytes), (∀ c ∈ chunks, (decode c).isSome) →
      ∀ acc : Audio, Scripts.mergeLoopAux decode acc chunks =
        some (acc ++ (chunks.map fun c => (decode c).getD []).join) := by
  intro chunks
  induction chunks with
  | nil =>
      intro _ acc
      simp [Scripts.mergeLoopAux]
  | cons d rest ih =>
      intro hdec acc
      obtain ⟨a, ha⟩ := Option.isSome_iff_exists.mp (hdec d (List.mem_cons_self d rest))
      rw [Scripts.mergeLoopAux, ha]
      show Scripts.mergeLoopAux decode (acc ++ a) rest = _
      rw [ih (fun c hc => hdec c (List.mem_cons_of_mem d hc)) (acc ++ a)]
      simp [ha]

/-- When every chunk decodes, the merge yields the ordered concatenation of
the decoded clips. -/
theorem mergeLoop_ok (decode : Bytes → Option Audio) (chunks : List Bytes)
    (hdec : ∀ c ∈ chunks, (decode c).isSome) :
    Scripts.mergeLoop decode chunks =
      some ((chunks.map fun c => (decode c).getD []).join) := by
  rw [Scripts.mergeLoop, mergeLoopAux_ok decode chunks hdec []]
  simp

/-- A single undecodable chunk aborts the whole loop. -/
theorem mergeLoopAux_none (decode : Bytes → Option Audio) :
    ∀ (chunks : List Bytes), (∃ c ∈ chunks, decode c = none) →
      ∀ acc : Audio, Scripts.mergeLoopAux decode acc chunks = none := by
  intro chunks
  induction chunks with
  | nil =>
      rintro ⟨c, hc, _⟩
      cases hc
  | cons d rest ih =>
      rintro ⟨c, hc, hcd⟩ acc
      cases hd : decode d with
      | none => rw [Scripts.mergeLoopAux, hd]
      | some a =>
          have hrest : ∃ c ∈ rest, decode c = none := by
            rcases List.mem_cons.mp hc with h | h
            · subst h
              rw [hd] at hcd
              cases hcd
            · exact ⟨c, h, hcd⟩
          rw [Scripts.mergeLoopAux, hd]
          show Scripts.mergeLoopAux decode (acc ++ a) rest = none
          rw [ih hrest (acc ++ a)]

/-- A single undecodable chunk makes the whole merge fail. -/
theorem mergeLoop_none (decode : Bytes → Option Audio) (chunks : List Bytes)
    (h : ∃ c ∈ chunks, decode c = none) :
    Scripts.mergeLoop decode chunks = none :=
  mergeLoopAux_none decode chunks h []

/-! ### Characterisation of the fan-out task list -/

/-- Task `i` of the scripts fan-out is the `fetch_tts` call for utterance
`i` with the voice assigned to index `i`. -/
theorem scripts_tasks_get? (w : World) (conv : List String) (i : Nat) :
    ((conv.enum.map fun it =>
        Scripts.fetch_tts w.svc it.2 (Scripts.get_voice it.1)).get? i)
      = (conv.get? i).map fun t => Scripts.fetch_tts w.svc t (Scripts.get_voice i) := by
  rw [List.get?_map, List.enum_get?]
  cases conv.get? i <;> rfl

/-- The request log of the scripts fan-out: one payload per utterance, in
input order. -/
theorem scripts_requests_eq (w : World) (conv : List String) (order : List Nat) :
    (Scripts.process_conversation w conv order).2
      = conv.enum.map fun it =>
          (Scripts.fetch_tts w.svc it.2 (Scripts.get_voice it.1)).2 := by
  show (conv.enum.map fun it =>
      Scripts.fetch_tts w.svc it.2 (Scripts.get_voice it.1)).map Prod.snd = _
  rw [List.map_map]
  rfl

/-- Every error a fan-out task can produce is an HTTP-status error: the
`ClientResponseError` carries the status and nothing else. -/
theorem scripts_taskFst_error_shape (w : World) (conv : List String) (j : Nat)
    (e : PyExc)
    (h : (((conv.enum.map fun it =>
        Scripts.fetch_tts w.svc it.2 (Scripts.get_voice it.1)).map Prod.fst).get? j)
      = some (.error e)) :
    ∃ s, e = .clientResponseError s := by
  rw [List.get?_map, scripts_tasks_get?] at h
  cases hc : conv.get? j with
  | none =>
      rw [hc] at h
      cases h
  | some t =>
      rw [hc] at h
      simp only [Option.map_some'] at h
      have h1 : (Scripts.fetch_tts w.svc t (Scripts.get_voice j)).1 = .error e :=
        Option.some_injective _ h
      simp only [Scripts.fetch_tts] at h1
      split at h1
      · cases h1
        exact ⟨_, rfl⟩
      · cases h1

/-- When the fan-out raises, `text2speech` swallows the exception, issues no
upload, and ends in the `UnboundLocalError` on `final_url`. -/
theorem t2s_eq_of_proc_error (w : World) (conv : List String) (order : List Nat)
    (e : PyExc)
    (h : (Scripts.process_conversation w conv order).1 = .error e) :
    Scripts.text2speech w conv order
      = ⟨.unboundLocalError "final_url",
         (Scripts.process_conversation w conv order).2, []⟩ := by
  rcases h1 : Scripts.process_conversation w conv order with ⟨res, reqs⟩
  rw [h1] at h
  dsimp at h
  subst h
  simp [Scripts.text2speech, h1]

/-- When the merge or the upload raises, `text2speech` swallows the
exception and ends in the `UnboundLocalError` on `final_url`. -/
theorem t2s_eq_of_merge_error (w : World) (conv : List String) (order : List Nat)
    (chunks : List Bytes) (e : PyExc)
    (hok : (Scripts.process_conversation w conv order).1 = .ok chunks)
    (he : (Scripts.merge_and_upload w chunks).1 = .error e) :
    Scripts.text2speech w conv order
      = ⟨.unboundLocalError "final_url",
         (Scripts.process_conversation w conv order).2,
         (Scripts.merge_and_upload w chunks).2⟩ := by
  rcases h1 : Scripts.process_conversation w conv order with ⟨res, reqs⟩
  rw [h1] at hok
  dsimp at hok
  subst hok
  rcases h2 : Scripts.merge_and_upload w chunks with ⟨mres, puts⟩
  rw [h2] at he
  dsimp at he
  subst he
  simp [Scripts.text2speech, h1, h2]

/-- The payload's rational `top_p` is the source's float literal `0.8`
(the literal itself is irreducible, so the payload stores the equal
normalised rational). -/
theorem top_p_literal : mkRat 8 10 = (0.8 : Rat) := by
  rw [show (0.8 : Rat) = Rat.ofScientific 8 true 1 from rfl, Rat.ofScientific_true_def]
  norm_num

/-! ## The claims -/

/-- C4: Voice assignment is a pure, total function of the zero-based index:
repeated calls agree, even indices map to the fixed voice `"brandon"`, odd
indices to the fixed voice `"juniper"`, and consecutive indices always get
different voices. -/
theorem get_voice_pure_alternating (i : Nat) :
    Scripts.get_voice i = Scripts.get_voice i ∧
    (i % 2 = 0 → Scripts.get_voice i = "brandon") ∧
    (i % 2 = 1 → Scripts.get_voice i = "juniper") ∧
    Scripts.get_voice i ≠ Scripts.get_voice (i + 1) := by
  refine ⟨rfl, fun h => by simp [Scripts.get_voice, h], fun h => by simp [Scripts.get_voice, h], ?_⟩
  rcases Nat.mod_two_eq_zero_or_one i with h | h
  · have h1 : (i + 1) % 2 = 1 := by omega
    simp [Scripts.get_voice, h, h1]
  · have h1 : (i + 1) % 2 = 0 := by omega
    simp [Scripts.get_voice, h, h1]

/-- Witness for C4 at the concrete indices 4 and 5. -/
theorem get_voice_pure_alternating_witness :
    Scripts.get_voice 4 = "brandon" ∧ Scripts.get_voice 5 = "juniper" ∧
    Scripts.get_voice 4 ≠ Scripts.get_voice 5 :=
  ⟨(get_voice_pure_alternating 4).2.1 (by decide),
   (get_voice_pure_alternating 5).2.2.1 (by decide),
   (get_voice_pure_alternating 4).2.2.2⟩

/-- C9, counterexample: the two duplicated voice-assignment implementations
disagree at index 1 — the scripts variant answers `"juniper"`, the backend
variant `"elowen"` — so they are not extensionally equal. -/
theorem get_voice_variants_differ_counterexample :
    Scripts.get_voice 1 = "juniper" ∧ Orkes.get_voice 1 = "elowen" ∧
    Scripts.get_voice 1 ≠ Orkes.get_voice 1 := by
  decide

/-- C9, amended: the two implementations agree exactly on even indices
(both answer `"brandon"`) and differ on every odd index. -/
theorem get_voice_variants_agree_only_on_even (i : Nat) :
    (i % 2 = 0 → Scripts.get_voice i = Orkes.get_voice i) ∧
    (i % 2 = 1 → Scripts.get_voice i ≠ Orkes.get_voice i) := by
  constructor
  · intro h
    simp [Scripts.get_voice, Orkes.get_voice, h]
  · intro h
    simp [Scripts.get_voice, Orkes.get_voice, h]

/-- Witness for the amended C9 at the concrete indices 2 and 3. -/
theorem get_voice_variants_agree_only_on_even_witness :
    Scripts.get_voice 2 = Orkes.get_voice 2 ∧
    Scripts.get_voice 3 ≠ Orkes.get_voice 3 :=
  ⟨(get_voice_variants_agree_only_on_even 2).1 (by decide),
   (get_voice_variants_agree_only_on_even 3).2 (by decide)⟩

/-- C6: if any synthesis result fails to decode, the merge step fails
atomically — the caller gets the decode exception, not a partial artifact,
and no S3 upload is attempted. -/
theorem decode_failure_aborts_merge (w : World) (chunks : List Bytes)
    (c : Bytes) (hc : c ∈ chunks) (hdec : w.decodeMp3 c = none) :
    Scripts.merge_and_upload w chunks = (.error .couldntDecodeError, []) := by
  have h := mergeLoop_none w.decodeMp3 chunks ⟨c, hc, hdec⟩
  simp [Scripts.merge_and_upload, h]

/-- Witness for C6: a world whose decoder rejects the chunk `[1]`. -/
theorem decode_failure_aborts_merge_witness :
    [1] ∈ [[1]] ∧ wDecodeFail.decodeMp3 [1] = none ∧
    Scripts.merge_and_upload wDecodeFail [[1]] = (.error .couldntDecodeError, []) :=
  ⟨by decide, rfl, decode_failure_aborts_merge wDecodeFail [[1]] [1] (by decide) rfl⟩

/-- C5: on a successful merge and accepted upload, publish performs exactly
one upload, keyed by this run's uuid4 draw, with content type `audio/mpeg`,
and returns the URL `https://<bucket>.s3.amazonaws.com/<key>` built from the
bucket name and exactly that key.  (Freshness/global uniqueness of the key
itself is the contract of `uuid.uuid4`, modelled here as the oracle draw
`w.uuid4`.) -/
theorem publish_unique_key_content_type_url (w : World) (chunks : List Bytes)
    (merged : Audio)
    (hmerge : Scripts.mergeLoop w.decodeMp3 chunks = some merged)
    (hup : w.s3Accept ⟨Scripts.AWS_S3_BUCKET, w.uuid4, w.exportMp3 merged, "audio/mpeg"⟩ = true) :
    Scripts.merge_and_upload w chunks =
      (.ok ("https://" ++ Scripts.AWS_S3_BUCKET ++ ".s3.amazonaws.com/" ++ w.uuid4),
       [⟨Scripts.AWS_S3_BUCKET, w.uuid4, w.exportMp3 merged, "audio/mpeg"⟩]) := by
  simp [Scripts.merge_and_upload, hmerge, hup]

/-- Witness for C5: merging the single decodable chunk `[2]` in `wOk`. -/
theorem publish_unique_key_content_type_url_witness :
    Scripts.mergeLoop wOk.decodeMp3 [[2]] = some [2] ∧
    Scripts.merge_and_upload wOk [[2]] =
      (.ok ("https://" ++ Scripts.AWS_S3_BUCKET ++ ".s3.amazonaws.com/" ++ wOk.uuid4),
       [⟨Scripts.AWS_S3_BUCKET, wOk.uuid4, wOk.exportMp3 [2], "audio/mpeg"⟩]) :=
  ⟨rfl, publish_unique_key_content_type_url wOk [[2]] [2] rfl rfl⟩

/-- C3, counterexample: on the empty conversation the pipeline issues zero
synthesis requests but does not fail with an input error — it merges the
empty track, uploads it, and returns a URL. -/
theorem empty_input_not_rejected_counterexample :
    (Scripts.text2speech wOk [] []).requests = [] ∧
    (Scripts.text2speech wOk [] []).outcome =
      .url "https://github-podcasts.s3.amazonaws.com/key-1" ∧
    (Scripts.text2speech wOk [] []).uploads =
      [⟨"github-podcasts", "key-1", [], "audio/mpeg"⟩] := by
  decide

/-- C3, amended: the empty conversation issues zero synthesis requests, but
no input error is raised; the pipeline merges the empty track, attempts the
upload, and (when the store accepts it) returns a URL. -/
theorem empty_input_uploads_empty_track (w : World) (order : List Nat)
    (hup : w.s3Accept ⟨Scripts.AWS_S3_BUCKET, w.uuid4, w.exportMp3 [], "audio/mpeg"⟩ = true) :
    Scripts.text2speech w [] order =
      ⟨.url ("https://" ++ Scripts.AWS_S3_BUCKET ++ ".s3.amazonaws.com/" ++ w.uuid4),
       [],
       [⟨Scripts.AWS_S3_BUCKET, w.uuid4, w.exportMp3 [], "audio/mpeg"⟩]⟩ := by
  have hff : firstFailure (ε := PyExc) (α := Bytes) [] order = none := by
    apply firstFailure_eq_none
    intro i _ e
    simp
  have hgather : gatherWithOrder (ε := PyExc) (α := Bytes) [] order = .ok [] := by
    simp [gatherWithOrder, hff]
  simp [Scripts.text2speech, Scripts.process_conversation, hgather,
    Scripts.merge_and_upload, Scripts.mergeLoop, Scripts.mergeLoopAux, hup]

/-- Witness for the amended C3 in the all-accepting world `wOk`. -/
theorem empty_input_uploads_empty_track_witness :
    Scripts.text2speech wOk [] [] =
      ⟨.url ("https://" ++ Scripts.AWS_S3_BUCKET ++ ".s3.amazonaws.com/" ++ wOk.uuid4),
       [],
       [⟨Scripts.AWS_S3_BUCKET, wOk.uuid4, wOk.exportMp3 [], "audio/mpeg"⟩]⟩ :=
  empty_input_uploads_empty_track wOk [] rfl

/-- C10: whenever the fan-out or the merge/upload raises, `text2speech`
returns neither a URL nor a structured error: the handler swallows the
exception and the final `return final_url` reads the never-assigned local,
so the caller receives the `UnboundLocalError` on `final_url`. -/
theorem text2speech_unbound_local_on_failure (w : World) (conv : List String)
    (order : List Nat)
    (hfail : (∃ e, (Scripts.process_conversation w conv order).1 = .error e) ∨
      (∃ chunks, (Scripts.process_conversation w conv order).1 = .ok chunks ∧
        ∃ e, (Scripts.merge_and_upload w chunks).1 = .error e)) :
    (Scripts.text2speech w conv order).outcome = .unboundLocalError "final_url" := by
  rcases hfail with ⟨e, he⟩ | ⟨chunks, hok, e, he⟩
  · rw [t2s_eq_of_proc_error w conv order e he]
  · rw [t2s_eq_of_merge_error w conv order chunks e hok he]

/-- Witness for C10: a decode failure makes `text2speech` end in the
`UnboundLocalError` instead of reporting the decode error. -/
theorem text2speech_unbound_local_on_failure_witness :
    (Scripts.merge_and_upload wDecodeFail [[7]]).1 = .error .couldntDecodeError ∧
    (Scripts.text2speech wDecodeFail ["a"] [0]).outcome = .unboundLocalError "final_url" :=
  ⟨by decide,
   text2speech_unbound_local_on_failure wDecodeFail ["a"] [0]
     (Or.inr ⟨[[7]], by decide, .couldntDecodeError, by decide⟩)⟩

/-- C7: every request of the fan-out carries the fixed parameter set —
model, language, output format mp3, sample rate 24000, seed 123, top_p 0.8,
temperature 1 — independent of the utterance's index and text; the request
log is exactly one payload per utterance, determined by its text and its
index's voice; and the backend variant builds the identical payload. -/
theorem fanout_requests_fixed_params (w : World) (conv : List String)
    (order : List Nat) (req : TtsPayload)
    (hreq : req ∈ (Scripts.process_conversation w conv order).2)
    (text voice : String) :
    (req.model = "blizzard" ∧ req.language = "auto" ∧ req.format = "mp3" ∧
      req.sample_rate = 24000 ∧ req.seed = 123 ∧ req.top_p = 0.8 ∧
      req.temperature = 1) ∧
    ((Scripts.process_conversation w conv order).2 =
      (List.range conv.length).map fun i =>
        (Scripts.fetch_tts w.svc (conv.getD i "") (Scripts.get_voice i)).2) ∧
    (Orkes.fetch_tts w.svc text voice).2 = (Scripts.fetch_tts w.svc text voice).2 := by
  refine ⟨?_, ?_, rfl⟩
  · rw [scripts_requests_eq] at hreq
    obtain ⟨it, _, heq⟩ := List.mem_map.mp hreq
    rw [← heq]
    exact ⟨rfl, rfl, rfl, rfl, rfl, top_p_literal, rfl⟩
  · rw [scripts_requests_eq, enum_map_eq_range_map]

/-- Witness for C7 on the concrete conversation `["hi", "yo"]`. -/
theorem fanout_requests_fixed_params_witness :
    ((Scripts.fetch_tts wOk.svc "hi" (Scripts.get_voice 0)).2 ∈
        (Scripts.process_conversation wOk ["hi", "yo"] [0, 1]).2) ∧
    (((Scripts.fetch_tts wOk.svc "hi" (Scripts.get_voice 0)).2.model = "blizzard" ∧
      (Scripts.fetch_tts wOk.svc "hi" (Scripts.get_voice 0)).2.language = "auto" ∧
      (Scripts.fetch_tts wOk.svc "hi" (Scripts.get_voice 0)).2.format = "mp3" ∧
      (Scripts.fetch_tts wOk.svc "hi" (Scripts.get_voice 0)).2.sample_rate = 24000 ∧
      (Scripts.fetch_tts wOk.svc "hi" (Scripts.get_voice 0)).2.seed = 123 ∧
      (Scripts.fetch_tts wOk.svc "hi" (Scripts.get_voice 0)).2.top_p = 0.8 ∧
      (Scripts.fetch_tts wOk.svc "hi" (Scripts.get_voice 0)).2.temperature = 1) ∧
    ((Scripts.process_conversation wOk ["hi", "yo"] [0, 1]).2 =
      (List.range (["hi", "yo"] : List String).length).map fun i =>
        (Scripts.fetch_tts wOk.svc ((["hi", "yo"] : List String).getD i "") (Scripts.get_voice i)).2) ∧
    (Orkes.fetch_tts wOk.svc "x" "v").2 = (Scripts.fetch_tts wOk.svc "x" "v").2) :=
  ⟨by decide,
   fanout_requests_fixed_params wOk ["hi", "yo"] [0, 1]
     (Scripts.fetch_tts wOk.svc "hi" (Scripts.get_voice 0)).2 (by decide) "x" "v"⟩

/-- C8, counterexample: an upload failure and a synthesis failure are
reported to the caller of `text2speech` as the very same outcome (the
`UnboundLocalError`), so the reported error is not of a distinct
"upload error" kind; and the backend `get_audio_file` raises the same
`RuntimeError` class for both, only the interpolated message differing. -/
theorem upload_error_indistinguishable_counterexample :
    (Scripts.merge_and_upload wUploadFail [[7]]).1 = .error .uploadError ∧
    400 ≤ (wFailA.svc ((Scripts.fetch_tts wFailA.svc "a" (Scripts.get_voice 0)).2)).status ∧
    (Scripts.text2speech wUploadFail ["a"] [0]).outcome =
      (Scripts.text2speech wFailA ["a"] [0]).outcome ∧
    (Orkes.get_audio_file wUploadFail ["a"] [0]).1 =
      .error (.runtimeError "Error generating audio: S3UploadFailedError: upload failed") ∧
    (Orkes.get_audio_file wFailA ["a"] [0]).1 =
      .error (.runtimeError "Error generating audio: ClientResponseError: 500") := by
  decide

/-- C8, amended: when the upload fails after a successful merge, the upload
stage itself raises a distinct upload exception, but the entry point does
not surface it — `text2speech` ends in the same `UnboundLocalError` as for
any other failure. -/
theorem upload_failure_swallowed_uniformly (w : World) (conv : List String)
    (order : List Nat) (chunks : List Bytes) (merged : Audio)
    (hproc : (Scripts.process_conversation w conv order).1 = .ok chunks)
    (hmerge : Scripts.mergeLoop w.decodeMp3 chunks = some merged)
    (hup : w.s3Accept ⟨Scripts.AWS_S3_BUCKET, w.uuid4, w.exportMp3 merged, "audio/mpeg"⟩ = false) :
    (Scripts.merge_and_upload w chunks).1 = .error .uploadError ∧
    (Scripts.text2speech w conv order).outcome = .unboundLocalError "final_url" := by
  have hmu : (Scripts.merge_and_upload w chunks).1 = .error .uploadError := by
    simp [Scripts.merge_and_upload, hmerge, hup]
  exact ⟨hmu, by rw [t2s_eq_of_merge_error w conv order chunks .uploadError hproc hmu]⟩

/-- Witness for the amended C8: S3 rejects the upload of the merged `[7]`. -/
theorem upload_failure_swallowed_uniformly_witness :
    (Scripts.process_conversation wUploadFail ["a"] [0]).1 = .ok [[7]] ∧
    ((Scripts.merge_and_upload wUploadFail [[7]]).1 = .error .uploadError ∧
      (Scripts.text2speech wUploadFail ["a"] [0]).outcome = .unboundLocalError "final_url") :=
  ⟨by decide,
   upload_failure_swallowed_uniformly wUploadFail ["a"] [0] [[7]] [7] (by decide) rfl rfl⟩

/-- C2, counterexample: two runs on the same two-utterance conversation —
one in which only utterance 0 fails, one in which only utterance 1 fails —
are observationally identical, both to the fan-out's caller and to the
entry point's caller, so the propagated failure does not identify which
utterance index failed. -/
theorem synthesis_failure_lacks_index_counterexample :
    (wFailA.svc ((Scripts.fetch_tts wFailA.svc "a" (Scripts.get_voice 0)).2)).status = 500 ∧
    (wFailA.svc ((Scripts.fetch_tts wFailA.svc "b" (Scripts.get_voice 1)).2)).status = 200 ∧
    (wFailB.svc ((Scripts.fetch_tts wFailB.svc "a" (Scripts.get_voice 0)).2)).status = 200 ∧
    (wFailB.svc ((Scripts.fetch_tts wFailB.svc "b" (Scripts.get_voice 1)).2)).status = 500 ∧
    Scripts.process_conversation wFailA ["a", "b"] [0, 1] =
      Scripts.process_conversation wFailB ["a", "b"] [0, 1] ∧
    Scripts.text2speech wFailA ["a", "b"] [0, 1] =
      Scripts.text2speech wFailB ["a", "b"] [0, 1] := by
  decide

/-- C2, amended: if any synthesis request fails, the whole fan-out fails
with a `ClientResponseError` carrying only the HTTP status (not the
utterance index), no upload is attempted, and `text2speech` swallows the
exception into the `UnboundLocalError`. -/
theorem synthesis_failure_aborts_fanout (w : World) (conv : List String)
    (order : List Nat) (i : Nat) (hi : i < conv.length)
    (hperm : order.Perm (List.range conv.length))
    (hfail : 400 ≤ (w.svc ((Scripts.fetch_tts w.svc (conv.getD i "") (Scripts.get_voice i)).2)).status) :
    (∃ s, (Scripts.process_conversation w conv order).1 =
      .error (.clientResponseError s)) ∧
    (Scripts.text2speech w conv order).outcome = .unboundLocalError "final_url" ∧
    (Scripts.text2speech w conv order).uploads = [] := by
  have hv : conv.get? i = some (conv.get ⟨i, hi⟩) := List.get?_eq_get hi
  have hd : conv.getD i "" = conv.get ⟨i, hi⟩ := by
    show (conv.get? i).getD "" = _
    rw [hv]
    rfl
  rw [hd] at hfail
  have herr : (Scripts.fetch_tts w.svc (conv.get ⟨i, hi⟩) (Scripts.get_voice i)).1
      = .error (.clientResponseError
          (w.svc ((Scripts.fetch_tts w.svc (conv.get ⟨i, hi⟩) (Scripts.get_voice i)).2)).status) := by
    simp only [Scripts.fetch_tts] at hfail ⊢
    rw [if_pos hfail]
  have hti : (((conv.enum.map fun it =>
      Scripts.fetch_tts w.svc it.2 (Scripts.get_voice it.1)).map Prod.fst).get? i)
      = some (.error (.clientResponseError
          (w.svc ((Scripts.fetch_tts w.svc (conv.get ⟨i, hi⟩) (Scripts.get_voice i)).2)).status)) := by
    rw [List.get?_map, scripts_tasks_get?, hv, Option.map_some', Option.map_some', herr]
  have himem : i ∈ order := hperm.mem_iff.mpr (List.mem_range.mpr hi)
  cases hff : firstFailure ((conv.enum.map fun it =>
      Scripts.fetch_tts w.svc it.2 (Scripts.get_voice it.1)).map Prod.fst) order with
  | none =>
      exfalso
      unfold firstFailure at hff
      rw [List.findSome?_eq_none_iff] at hff
      have hcontra := hff i himem
      rw [hti] at hcontra
      simp at hcontra
  | some e =>
      have hproc : (Scripts.process_conversation w conv order).1 = .error e := by
        show gatherWithOrder ((conv.enum.map fun it =>
          Scripts.fetch_tts w.svc it.2 (Scripts.get_voice it.1)).map Prod.fst) order = .error e
        unfold gatherWithOrder
        rw [hff]
      obtain ⟨j, hj⟩ := firstFailure_some_spec _ order e hff
      obtain ⟨s, rfl⟩ := scripts_taskFst_error_shape w conv j e hj
      refine ⟨⟨s, hproc⟩, ?_, ?_⟩
      · rw [t2s_eq_of_proc_error w conv order _ hproc]
      · rw [t2s_eq_of_proc_error w conv order _ hproc]

/-- Witness for the amended C2: utterance 0 of `["a", "b"]` fails with 500. -/
theorem synthesis_failure_aborts_fanout_witness :
    (Scripts.process_conversation wFailA ["a", "b"] [0, 1]).1 =
      .error (.clientResponseError 500) ∧
    (Scripts.text2speech wFailA ["a", "b"] [0, 1]).outcome = .unboundLocalError "final_url" ∧
    (Scripts.text2speech wFailA ["a", "b"] [0, 1]).uploads = [] :=
  ⟨by decide,
   (synthesis_failure_aborts_fanout wFailA ["a", "b"] [0, 1] 0
     (by decide) (by decide) (by decide)).2.1,
   (synthesis_failure_aborts_fanout wFailA ["a", "b"] [0, 1] 0
     (by decide) (by decide) (by decide)).2.2⟩

/-- C1: for a non-empty conversation whose synthesis calls all succeed and
decode, and for EVERY completion order of the concurrent calls, the fan-out
result holds utterance i's bytes in slot i, and the merged track is the
concatenation of the decoded clips in exactly the input order — the segment
at position i being the decoded synthesis result of utterance i. -/
theorem merged_track_preserves_input_order (w : World) (conv : List String)
    (order : List Nat) (_hne : conv ≠ [])
    (hperm : order.Perm (List.range conv.length))
    (hok : ∀ i, i < conv.length →
      (w.svc ((Scripts.fetch_tts w.svc (conv.getD i "") (Scripts.get_voice i)).2)).status < 400)
    (hdec : ∀ i, i < conv.length →
      (w.decodeMp3 (w.svc ((Scripts.fetch_tts w.svc (conv.getD i "") (Scripts.get_voice i)).2)).body).isSome) :
    (Scripts.process_conversation w conv order).1 =
      .ok ((List.range conv.length).map fun i =>
        (w.svc ((Scripts.fetch_tts w.svc (conv.getD i "") (Scripts.get_voice i)).2)).body) ∧
    Scripts.mergeLoop w.decodeMp3
        ((List.range conv.length).map fun i =>
          (w.svc ((Scripts.fetch_tts w.svc (conv.getD i "") (Scripts.get_voice i)).2)).body) =
      some (((List.range conv.length).map fun i =>
        (w.decodeMp3 (w.svc ((Scripts.fetch_tts w.svc (conv.getD i "") (Scripts.get_voice i)).2)).body).getD []).join) := by
  constructor
  · have htasks : ((conv.enum.map fun it =>
        Scripts.fetch_tts w.svc it.2 (Scripts.get_voice it.1)).map Prod.fst)
        = ((List.range conv.length).map fun i =>
            (w.svc ((Scripts.fetch_tts w.svc (conv.getD i "") (Scripts.get_voice i)).2)).body).map
          Except.ok := by
      apply List.ext
      intro j
      rw [List.get?_map, scripts_tasks_get?, List.get?_map, List.get?_map]
      by_cases hj : j < conv.length
      · rw [List.get?_range hj]
        have hv : conv.get? j = some (conv.get ⟨j, hj⟩) := List.get?_eq_get hj
        have hd : conv.getD j "" = conv.get ⟨j, hj⟩ := by
          show (conv.get? j).getD "" = _
          rw [hv]
          rfl
        rw [hv]
        simp only [Option.map_some']
        have hs := hok j hj
        rw [hd] at hs ⊢
        congr 1
        simp only [Scripts.fetch_tts] at hs ⊢
        rw [if_neg (Nat.not_le.mpr hs)]
      · have h1 : conv.get? j = none := by
          rw [List.get?_eq_none]
          exact Nat.le_of_not_lt hj
        have h2 : (List.range conv.length).get? j = none := by
          rw [List.get?_eq_none]
          simpa using Nat.le_of_not_lt hj
        rw [h1, h2]
        rfl
    show gatherWithOrder ((conv.enum.map fun it =>
      Scripts.fetch_tts w.svc it.2 (Scripts.get_voice it.1)).map Prod.fst) order = _
    rw [htasks]
    apply gatherWithOrder_ok
    simpa using hperm
  · have hdec' : ∀ c ∈ (List.range conv.length).map fun i =>
        (w.svc ((Scripts.fetch_tts w.svc (conv.getD i "") (Scripts.get_voice i)).2)).body,
        (w.decodeMp3 c).isSome := by
      intro c hc
      obtain ⟨i, hi, rfl⟩ := List.mem_map.mp hc
      exact hdec i (List.mem_range.mp hi)
    rw [mergeLoop_ok w.decodeMp3 _ hdec', List.map_map]
    rfl

/-- Witness for C1: three utterances, completion order 1, 0, 2 — the spec's
out-of-order completion scenario. -/
theorem merged_track_preserves_input_order_witness :
    (Scripts.process_conversation wOk ["A", "B", "C"] [1, 0, 2]).1 =
      .ok ((List.range (["A", "B", "C"] : List String).length).map fun i =>
        (wOk.svc ((Scripts.fetch_tts wOk.svc ((["A", "B", "C"] : List String).getD i "")
          (Scripts.get_voice i)).2)).body) ∧
    Scripts.mergeLoop wOk.decodeMp3
        ((List.range (["A", "B", "C"] : List String).length).map fun i =>
          (wOk.svc ((Scripts.fetch_tts wOk.svc ((["A", "B", "C"] : List String).getD i "")
            (Scripts.get_voice i)).2)).body) =
      some (((List.range (["A", "B", "C"] : List String).length).map fun i =>
        (wOk.decodeMp3 (wOk.svc ((Scripts.fetch_tts wOk.svc
          ((["A", "B", "C"] : List String).getD i "") (Scripts.get_voice i)).2)).body).getD []).join) :=
  merged_track_preserves_input_order wOk ["A", "B", "C"] [1, 0, 2]
    (by decide) (by decide) (by decide) (by decide)

end GitTranslate
